import Mathlib

/-!
Shallow embedding of the Fair-News multi-backend inference manager and
multi-agent bias-judgment pipeline (`src/backend/model.py` and
`src/backend/main.py`).

External effects (the `ollama` client, the `transformers` loading and
pipeline calls) are modelled as oracle functions collected in an `Env`
record; a call that may raise a Python exception is an `Except String α`
value.  The mutable `ModelManager` singleton is threaded explicitly as a
state record.  Scores are represented as rationals (`ℚ`), which keeps the
distinction between the Python values `0.5`, `50` and `50.0` (the latter
two are the same rational).  Generation functions additionally return the
list of underlying backend calls they issued, in order, so that theorems
can speak about how many generation calls a code path performs.
-/

namespace FairNews

/-- The two backend kinds (`class ModelBackend(Enum)`, model.py 22-24). -/
inductive ModelBackend where
  | ollama
  | transformers
deriving DecidableEq, Repr

/-- `ModelBackend.value` strings (model.py 23-24). -/
def ModelBackend.value : ModelBackend → String
  | .ollama => "ollama"
  | .transformers => "transformers"

/-- `ModelBackend(s)` construction from a string; Python raises `ValueError`
on an unknown value, modelled as `none` (used at main.py 39 and 65). -/
def ModelBackend.fromString : String → Option ModelBackend
  | "ollama" => some ModelBackend.ollama
  | "transformers" => some ModelBackend.transformers
  | _ => none

/-- The three fixed persona identifiers (keys of `agent_prompts`,
model.py 34-38; iteration order of `judge`, main.py 80). -/
inductive Agent where
  | liberal
  | conservative
  | neutral
deriving DecidableEq, Repr

/-- The persona key as the string used in dictionaries and error texts. -/
def Agent.name : Agent → String
  | .liberal => "liberal"
  | .conservative => "conservative"
  | .neutral => "neutral"

/-- `liberal_prompt` (model.py 28). -/
def liberal_prompt : String :=
  "あなたはリベラル（進歩主義的）な視点を持つ評論家です。個人の権利、社会的公正、環境保護、多様性の重要性を重視します。保守的な権力構造や国家主義的な論調には懐疑的です。以下のニュースに対して、リベラル的視点から見て、その内容がいかに公平であるか、または偏っているかを論じてください。"

/-- `conservative_prompt` (model.py 30). -/
def conservative_prompt : String :=
  "あなたは保守的な視点を持つ評論家です。伝統、国家、家族の価値を重視し、個人の自由と責任を強調します。リベラルな政策や国家介入には懐疑的です。以下のニュースに対して、保守的視点から見て、その内容がいかに公平であるか、または偏っているかを論じてください。"

/-- `neutral_prompt` (model.py 32). -/
def neutral_prompt : String :=
  "あなたは中立かつ事実ベースの立場から、ニュースの内容の正確性や信頼性を評価するファクトチェッカーです。事実、出典、論理性に基づいてこのニュースがどれだけ客観的かを評価してください。感情的・扇動的な表現についても指摘してください。"

/-- The `agent_prompts` dictionary (model.py 34-38); a total function on the
three fixed keys that every in-repo call site uses. -/
def agent_prompts : Agent → String
  | .liberal => liberal_prompt
  | .conservative => conservative_prompt
  | .neutral => neutral_prompt

/-- Python `x or default` for an optional string argument: `None` and the
empty string are falsy and are replaced by the default
(model.py 135, 159, 259). -/
def orDefault (mn : Option String) (d : String) : String :=
  match mn with
  | none => d
  | some s => if s = "" then d else s

/-- Environment of external effects: availability flags of the two optional
imports and oracles for each kind of external call.  `Except String α`
models a Python call returning `α` or raising an exception whose message is
the `String`.  Handles produced by the `transformers` loaders are modelled
as natural-number tags. -/
structure Env where
  ollama_available : Bool
  transformers_available : Bool
  /-- `ollama.list()` reduced to the extracted model-name list
  (model.py 66-82); an exception is `.error`. -/
  ollama_list : Except String (List String)
  /-- `ollama.generate(model=m, prompt=p)` reduced to its `response` field. -/
  ollama_generate : String → String → Except String String
  /-- `AutoTokenizer.from_pretrained(name)` (model.py 106). -/
  load_tokenizer : String → Except String Nat
  /-- `AutoModelForCausalLM.from_pretrained(name, ...)` (model.py 107). -/
  load_model : String → Except String Nat
  /-- `pipeline("text-generation", model=.., tokenizer=..)` (model.py 114). -/
  make_pipeline : Nat → Nat → Except String Nat
  /-- running `self.pipeline(full_prompt, ...)` reduced to the
  `generated_text` of its first output (model.py 224-233); the constant
  sampling parameters are absorbed into the oracle. -/
  pipeline_run : Nat → String → Except String String

/-- The mutable state of the `ModelManager` singleton
(`ModelManager.__init__`, model.py 44-48). -/
structure ModelManager where
  backend : Option ModelBackend
  model : Option Nat
  tokenizer : Option Nat
  pipeline : Option Nat
deriving DecidableEq, Repr

/-- The freshly constructed manager: every field `None`
(model.py 44-48, instantiated at model.py 270). -/
def initManager : ModelManager :=
  { backend := none, model := none, tokenizer := none, pipeline := none }

/-- `ModelManager.get_ollama_models` (model.py 59-85): empty when the
`ollama` import is missing, the extracted name list on success, and empty
(with a logged message) when `ollama.list()` raises. -/
def get_ollama_models (env : Env) : List String :=
  if env.ollama_available = false then []
  else
    match env.ollama_list with
    | .ok models => models
    | .error _ => []

/-- `ModelManager.check_ollama_model` (model.py 87-97): membership of the
name in `get_ollama_models` (which never raises), `False` when `ollama` is
unavailable. -/
def check_ollama_model (env : Env) (model_name : String) : Bool :=
  if env.ollama_available = false then false
  else (get_ollama_models env).contains model_name

/-- Body of the `try` block of `ModelManager.load_transformers_model`
(model.py 104-126), which is only entered when the `transformers` import is
available.  The three external steps run in sequence and each assignment to
`self.tokenizer` / `self.model` / `self.pipeline` happens only after its
producing call returned, so a failure leaves the later fields untouched;
the `except` clause returns `False` without resetting anything.  Returns
the Python boolean result together with the updated manager state. -/
def load_transformers_model_avail (env : Env) (mgr : ModelManager)
    (model_name : String) : Bool × ModelManager :=
  match env.load_tokenizer model_name with
  | .error _ => (false, mgr)
  | .ok tok =>
    let mgr1 := { mgr with tokenizer := some tok }
    match env.load_model model_name with
    | .error _ => (false, mgr1)
    | .ok mdl =>
      let mgr2 := { mgr1 with model := some mdl }
      match env.make_pipeline mdl tok with
      | .error _ => (false, mgr2)
      | .ok pl => (true, { mgr2 with pipeline := some pl })

/-- `ModelManager.load_transformers_model` (model.py 99-126): raises
`ImportError` (modelled as `.error`) when `transformers` is unavailable,
otherwise runs the guarded body. -/
def load_transformers_model (env : Env) (mgr : ModelManager)
    (model_name : String) : Except String (Bool × ModelManager) :=
  if env.transformers_available = false then
    .error "Transformers is not available"
  else
    .ok (load_transformers_model_avail env mgr model_name)

/-- `ModelManager.switch_backend` (model.py 128-167).  The availability
guards precede the load call, so the `ImportError` branch of
`load_transformers_model` is unreachable from here and the guarded body is
used directly.  Returns the Python boolean result and the updated state. -/
def switch_backend (env : Env) (mgr : ModelManager) (backend : ModelBackend)
    (model_name : Option String) : Bool × ModelManager :=
  match backend with
  | .ollama =>
    if env.ollama_available = false then (false, mgr)
    else
      let name := orDefault model_name "llama3.2"
      if check_ollama_model env name = false then (false, mgr)
      else (true, { mgr with backend := some ModelBackend.ollama })
  | .transformers =>
    if env.transformers_available = false then (false, mgr)
    else
      let name := orDefault model_name "rinna/japanese-gpt-neox-3.6b-instruction-sft"
      let r := load_transformers_model_avail env mgr name
      if r.1 then (true, { r.2 with backend := some ModelBackend.transformers })
      else (false, r.2)

/-! ## ScoreExtractor

`generate_response_ollama` converts the second model response to a number
with `re.search(r'\b(\d{1,2}|100)\b', score_text)` on the stripped response
text (model.py 189-197).  The regex is embedded with Python `re` semantics:
leftmost match position wins, the alternation is tried in order
(`\d{1,2}` greedily, two digits before one, then the literal `100`), and
`\b` is a word boundary under Python's Unicode notion of a word character.
-/

/-- Model of Python's Unicode `\w` (and of `str.isalnum` plus `_`),
covering the character classes that occur in this repository's strings:
ASCII alphanumerics, underscore, kana, CJK unified ideographs, and
fullwidth alphanumerics.  Punctuation (ASCII or fullwidth), spaces and
symbols such as `%` are not word characters. -/
def isWordChar (c : Char) : Bool :=
  c.isAlphanum || c = '_'
  || (0x3041 ≤ c.toNat && c.toNat ≤ 0x3096)
  || (0x30A1 ≤ c.toNat && c.toNat ≤ 0x30FA)
  || (0x4E00 ≤ c.toNat && c.toNat ≤ 0x9FFF)
  || (0xFF10 ≤ c.toNat && c.toNat ≤ 0xFF19)
  || (0xFF21 ≤ c.toNat && c.toNat ≤ 0xFF3A)
  || (0xFF41 ≤ c.toNat && c.toNat ≤ 0xFF5A)

/-- Wordness of an optional character; the virtual positions before the
first and after the last character count as non-word. -/
def wordQ : Option Char → Bool
  | none => false
  | some c => isWordChar c

/-- `\b` holds between two (possibly virtual) characters iff exactly one
side is a word character. -/
def boundaryB (a b : Option Char) : Bool :=
  wordQ a != wordQ b

/-- Model of Python's `\d` restricted to the ASCII digits `0`-`9`, the only
decimal digits occurring in this repository's data (Python would also
accept other Unicode decimal digits). -/
def isDigitCh (c : Char) : Bool :=
  48 ≤ c.toNat && c.toNat ≤ 57

/-- Attempt to match `\b(\d{1,2}|100)\b` anchored at the current position,
whose preceding character (if any) is `prev`.  Follows Python backtracking
order: two digits, then one digit, then the literal `100`, each followed by
the closing `\b`.  Returns the matched characters. -/
def matchAt (prev : Option Char) (cs : List Char) : Option (List Char) :=
  if boundaryB prev cs.head? then
    match cs with
    | [] => none
    | [d1] =>
      if isDigitCh d1 && boundaryB (some d1) none then some [d1] else none
    | d1 :: d2 :: rest =>
      if isDigitCh d1 && isDigitCh d2 && boundaryB (some d2) rest.head? then
        some [d1, d2]
      else if isDigitCh d1 && boundaryB (some d1) (some d2) then
        some [d1]
      else if d1 = '1' && d2 = '0' then
        match rest with
        | d3 :: rest2 =>
          if d3 = '0' && boundaryB (some d3) rest2.head? then some [d1, d2, d3]
          else none
        | [] => none
      else none
  else none

/-- `re.search`: scan positions left to right, returning the first match.
`prev` is the character just before the current position (`none` at the
start of the string).  The pattern needs at least one digit, so the empty
position at the end of the string can never match. -/
def searchFrom : Option Char → List Char → Option (List Char)
  | _, [] => none
  | prev, c :: rest =>
    match matchAt prev (c :: rest) with
    | some tok => some tok
    | none => searchFrom (some c) rest

/-- Numeric value of a matched digit token (`float(score_match.group())`
composed with the decimal reading of the digits). -/
def digitsToNat (tok : List Char) : Nat :=
  tok.foldl (fun n c => n * 10 + (c.toNat - 48)) 0

/-- Python `str.strip()` on the character list: drop leading and trailing
whitespace (model.py 190). -/
def pyStrip (cs : List Char) : List Char :=
  ((cs.dropWhile Char.isWhitespace).reverse.dropWhile Char.isWhitespace).reverse

/-- The ScoreExtractor (spec §4.4), embedded from model.py 189-197: strip
the response text, search it for `\b(\d{1,2}|100)\b`, convert the match
with `float`, and fall back to `50.0` when there is no match.  The
enclosing `except` branch (`bias_score = 50`) is unreachable in the
embedding because none of these steps can raise. -/
def extract_score (text : String) : ℚ :=
  match searchFrom none (pyStrip text.data) with
  | some tok => (digitsToNat tok : ℚ)
  | none => 50

/-! ## Generation paths -/

/-- A per-persona outcome as built by the generation functions
(the `{"summary": ..., "bias_score": ...}` dictionaries of model.py). -/
structure AgentResult where
  summary : String
  bias_score : ℚ
deriving DecidableEq, Repr

/-- One underlying backend call, recorded in issue order. -/
inductive BackendCall where
  | ollamaCall (model : String) (prompt : String)
  | pipelineCall (handle : Nat) (prompt : String)
deriving DecidableEq, Repr

/-- The full prompt of the primary Ollama call (model.py 171-172):
the fixed system framing, the persona's instruction text, a blank line,
and the article text. -/
def compose_prompt (agent : Agent) (prompt : String) : String :=
  "あなたは日本語で回答する有用なアシスタントです。" ++ agent_prompts agent ++ "\n\n" ++ prompt

/-- The prompt of the secondary (bias-scoring) Ollama call
(model.py 183-186). -/
def score_prompt (agent : Agent) (prompt : String) : String :=
  compose_prompt agent prompt
    ++ "に対して、この記事は" ++ agent_prompts agent
    ++ "の視点から何点の偏りがつけられますか？\n\n0-100で答えてください。0：偏りなし（中立）、100：非常に偏っている（極左、極右）"

/-- `ModelManager.generate_response_ollama` (model.py 169-210): primary
generation call, secondary scoring call, score extraction; any exception
from either call is caught and converted to a result whose summary is the
error text `"Ollama APIエラー (<agent>): <e>"` and whose `bias_score` is
the Python literal `0.5`.  Also returns the list of issued calls. -/
def generate_response_ollama (env : Env) (agent : Agent) (prompt : String)
    (model_name : String) : AgentResult × List BackendCall :=
  match env.ollama_generate model_name (compose_prompt agent prompt) with
  | .error e =>
    ({ summary := "Ollama APIエラー (" ++ agent.name ++ "): " ++ e,
       bias_score := 1/2 },
     [BackendCall.ollamaCall model_name (compose_prompt agent prompt)])
  | .ok result =>
    match env.ollama_generate model_name (score_prompt agent prompt) with
    | .error e =>
      ({ summary := "Ollama APIエラー (" ++ agent.name ++ "): " ++ e,
         bias_score := 1/2 },
       [BackendCall.ollamaCall model_name (compose_prompt agent prompt),
        BackendCall.ollamaCall model_name (score_prompt agent prompt)])
    | .ok score_text =>
      ({ summary := result, bias_score := extract_score score_text },
       [BackendCall.ollamaCall model_name (compose_prompt agent prompt),
        BackendCall.ollamaCall model_name (score_prompt agent prompt)])

/-- The full prompt of the single Transformers generation call
(model.py 220). -/
def transformers_prompt (agent : Agent) (prompt : String) : String :=
  agent_prompts agent ++ "\n\n記事: " ++ prompt ++ "\n\n分析:"

/-- `ModelManager.generate_response_transformers` (model.py 212-254): fails
fast with a fixed message when no pipeline is loaded; otherwise one
generation call whose output has the prompt removed and is stripped; the
`bias_score` is always the Python literal `0.5` — the code performs no
secondary scoring call on this path (model.py 239-241). -/
def generate_response_transformers (env : Env) (mgr : ModelManager)
    (agent : Agent) (prompt : String) : AgentResult × List BackendCall :=
  match mgr.pipeline with
  | none =>
    ({ summary := "Transformersモデルが読み込まれていません", bias_score := 1/2 }, [])
  | some pl =>
    match env.pipeline_run pl (transformers_prompt agent prompt) with
    | .error e =>
      ({ summary := "Transformers APIエラー (" ++ agent.name ++ "): " ++ e,
         bias_score := 1/2 },
       [BackendCall.pipelineCall pl (transformers_prompt agent prompt)])
    | .ok text =>
      ({ summary := ((text.replace (transformers_prompt agent prompt) "").trim),
         bias_score := 1/2 },
       [BackendCall.pipelineCall pl (transformers_prompt agent prompt)])

/-- `ModelManager.generate_response` (model.py 256-266): dispatch on the
active backend; with no backend set, a fixed failure result without any
backend call. -/
def ModelManager.generate_response (env : Env) (mgr : ModelManager)
    (agent : Agent) (prompt : String) (model_name : Option String) :
    AgentResult × List BackendCall :=
  match mgr.backend with
  | some .ollama =>
    generate_response_ollama env agent prompt (orDefault model_name "llama3.2")
  | some .transformers =>
    generate_response_transformers env mgr agent prompt
  | none =>
    ({ summary := "バックエンドが設定されていません", bias_score := 1/2 }, [])

/-- The module-level `generate_response` (model.py 280-294): when no
backend is active, try Ollama with the given model name, then
Transformers; if both switches fail return the fixed no-backend result (no
generation call is attempted); otherwise dispatch through the manager.
Returns the result, the manager state after the call, and the issued
backend calls. -/
def generate_response (env : Env) (mgr : ModelManager) (agent : Agent)
    (prompt : String) (model_name : Option String) :
    AgentResult × ModelManager × List BackendCall :=
  if mgr.backend = none then
    let r1 := switch_backend env mgr ModelBackend.ollama model_name
    if r1.1 then
      let g := ModelManager.generate_response env r1.2 agent prompt model_name
      (g.1, r1.2, g.2)
    else
      let r2 := switch_backend env r1.2 ModelBackend.transformers none
      if r2.1 then
        let g := ModelManager.generate_response env r2.2 agent prompt model_name
        (g.1, r2.2, g.2)
      else
        ({ summary := "利用可能なバックエンドがありません", bias_score := 1/2 }, r2.2, [])
  else
    let g := ModelManager.generate_response env mgr agent prompt model_name
    (g.1, mgr, g.2)

/-! ## The judge endpoint (`src/backend/main.py`) -/

/-- `ArticleRequest` (main.py 11-14). -/
structure ArticleRequest where
  article : String
  backend : Option String
  model_name : Option String
deriving DecidableEq, Repr

/-- One entry of the `results` mapping built by `judge` (main.py 82-86);
`facts` is filled with the literal empty list. -/
structure JudgeEntry where
  summary : String
  bias_score : ℚ
  facts : List String
deriving DecidableEq, Repr

/-- The successful response of `judge` (main.py 88-95).  The wall-clock
`execution_time` string is the one field not modelled: it reads a real-time
clock and no claim concerns it. -/
structure JudgeResponse where
  results : List (String × JudgeEntry)
  backend_name : String
  model_name : String
deriving DecidableEq, Repr

/-- `HTTPException` outcomes raised by the endpoint, by status code. -/
inductive HTTPError where
  | badRequest (detail : String)
  | serverError (detail : String)
deriving DecidableEq, Repr

/-- The fixed persona iteration order of `judge` (main.py 80). -/
def judgeAgents : List Agent :=
  [Agent.liberal, Agent.conservative, Agent.neutral]

/-- The `for agent in [...]` loop of `judge` (main.py 79-86): one
`generate_response` call per persona, threading the manager state, each
entry extended with the literal `facts: []`. -/
def judge_loop (env : Env) : List Agent → ModelManager → String →
    Option String → List (String × JudgeEntry) × ModelManager
  | [], mgr, _, _ => ([], mgr)
  | a :: rest, mgr, article, mn =>
    let r := generate_response env mgr a article mn
    let tail := judge_loop env rest r.2.1 article mn
    ((a.name,
      { summary := r.1.summary, bias_score := r.1.bias_score, facts := [] })
       :: tail.1,
     tail.2)

/-- Stage 1 of `judge` (main.py 62-70): an explicit backend override in
the request is switched to first (`if request.backend:` — `None` and the
empty string are falsy, so both skip the override); an unknown name is a
400 (`ValueError` from the enum constructor) and a failed switch is a 400
raised from inside the `try` (an `HTTPException` is not a `ValueError`, so
it propagates). -/
def judge_override (env : Env) (mgr : ModelManager) (req : ArticleRequest) :
    Except HTTPError ModelManager :=
  match req.backend with
  | none => .ok mgr
  | some bs =>
    if bs = "" then .ok mgr
    else match ModelBackend.fromString bs with
    | none => .error (HTTPError.badRequest "無効なバックエンドです")
    | some be =>
      if (switch_backend env mgr be req.model_name).1 then
        .ok (switch_backend env mgr be req.model_name).2
      else .error (HTTPError.badRequest "指定されたバックエンドに切り替えできませんでした")

/-- Stage 2 of `judge` (main.py 72-77): with no active backend,
auto-select Ollama with `"llama3.2"`, then Transformers; if both fail,
a 500. -/
def judge_autoselect (env : Env) (mgr1 : ModelManager) :
    Except HTTPError ModelManager :=
  if mgr1.backend = none then
    if (switch_backend env mgr1 ModelBackend.ollama (some "llama3.2")).1 then
      .ok (switch_backend env mgr1 ModelBackend.ollama (some "llama3.2")).2
    else
      if (switch_backend env (switch_backend env mgr1 ModelBackend.ollama
            (some "llama3.2")).2 ModelBackend.transformers none).1 then
        .ok (switch_backend env (switch_backend env mgr1 ModelBackend.ollama
            (some "llama3.2")).2 ModelBackend.transformers none).2
      else .error (HTTPError.serverError "利用可能なバックエンドがありません")
  else .ok mgr1

/-- The `judge` endpoint (main.py 57-95): the override stage, the
auto-selection stage, then the per-persona loop, whose failures only ever
appear inside the entries.  The `meta.backend` field reads the manager
state after the loop. -/
def judge (env : Env) (mgr : ModelManager) (req : ArticleRequest) :
    Except HTTPError (JudgeResponse × ModelManager) :=
  match judge_override env mgr req with
  | .error e => .error e
  | .ok mgr1 =>
    match judge_autoselect env mgr1 with
    | .error e => .error e
    | .ok mgr2 =>
      .ok ({ results := (judge_loop env judgeAgents mgr2 req.article req.model_name).1,
             backend_name :=
               match (judge_loop env judgeAgents mgr2 req.article req.model_name).2.backend with
               | some b => b.value
               | none => "unknown",
             model_name := orDefault req.model_name "default" },
           (judge_loop env judgeAgents mgr2 req.article req.model_name).2)

/-! ## Concrete environments and states used by the theorems -/

/-- Environment with a reachable Ollama backend whose catalog holds
`llama3.2` and whose generation calls all answer `"42"`; the
`transformers` import is absent. -/
def envOk : Env :=
  { ollama_available := true
    transformers_available := false
    ollama_list := .ok ["llama3.2"]
    ollama_generate := fun _ _ => .ok "42"
    load_tokenizer := fun _ => .error "ImportError"
    load_model := fun _ => .error "ImportError"
    make_pipeline := fun _ _ => .error "ImportError"
    pipeline_run := fun _ _ => .error "ImportError" }

/-- Like `envOk` but every `ollama.generate` call raises. -/
def envFail : Env :=
  { envOk with ollama_generate := fun _ _ => .error "connection refused" }

/-- Environment in which neither backend dependency is installed. -/
def envNone : Env :=
  { envOk with
      ollama_available := false
      ollama_list := .error "ImportError"
      ollama_generate := fun _ _ => .error "ImportError" }

/-- Environment with only the in-process (`transformers`) backend, whose
loads succeed and whose pipeline answers a fixed text. -/
def envTrans : Env :=
  { ollama_available := false
    transformers_available := true
    ollama_list := .error "ImportError"
    ollama_generate := fun _ _ => .error "ImportError"
    load_tokenizer := fun _ => .ok 3
    load_model := fun _ => .ok 2
    make_pipeline := fun _ _ => .ok 1
    pipeline_run := fun _ _ => .ok "分析テキスト" }

/-- Like `envTrans` but the tokenizer load raises (an invalid model name). -/
def envLoadFail : Env :=
  { envTrans with load_tokenizer := fun _ => .error "model not found" }

/-- Manager state after a successful switch to the in-process backend:
`transformers` active with a cached pipeline handle. -/
def mgrLoaded : ModelManager :=
  { backend := some ModelBackend.transformers
    model := some 2
    tokenizer := some 3
    pipeline := some 1 }

/-- Plain judge request: a non-empty article, no backend override, no model
name. -/
def reqPlain : ArticleRequest :=
  { article := "記事", backend := none, model_name := none }

/-- The per-persona entry produced by a judge run in `envOk`: every call
answers `"42"`, whose extracted score is `42`. -/
def entryOk : JudgeEntry :=
  { summary := "42", bias_score := 42, facts := [] }

/-- The judge response produced by `judge envOk initManager reqPlain`. -/
def respOk : JudgeResponse :=
  { results := [("liberal", entryOk), ("conservative", entryOk), ("neutral", entryOk)]
    backend_name := "ollama"
    model_name := "default" }

/-- Manager state after the auto-selection of the Ollama backend. -/
def mgrOllama : ModelManager :=
  { backend := some ModelBackend.ollama, model := none, tokenizer := none,
    pipeline := none }

/-! ## Helper lemmas about the score extractor -/

theorem isDigitCh_bounds {c : Char} (h : isDigitCh c = true) :
    48 ≤ c.toNat ∧ c.toNat ≤ 57 := by
  simpa [isDigitCh] using h

theorem matchAt_le_100 (prev : Option Char) (cs tok : List Char)
    (h : matchAt prev cs = some tok) : digitsToNat tok ≤ 100 := by
  rcases cs with _ | ⟨d1, _ | ⟨d2, rest⟩⟩
  · simp [matchAt] at h
  · simp only [matchAt] at h
    split at h
    · split at h
      · rename_i hd
        rw [Bool.and_eq_true] at hd
        injection h with h
        subst h
        obtain ⟨hb1, hb2⟩ := isDigitCh_bounds hd.1
        simp only [digitsToNat, List.foldl]
        omega
      · simp at h
    · simp at h
  · simp only [matchAt] at h
    split at h
    · split at h
      · rename_i hd
        rw [Bool.and_eq_true, Bool.and_eq_true] at hd
        injection h with h
        subst h
        obtain ⟨hb1, hb2⟩ := isDigitCh_bounds hd.1.1
        obtain ⟨hc1, hc2⟩ := isDigitCh_bounds hd.1.2
        simp only [digitsToNat, List.foldl]
        omega
      · split at h
        · rename_i hd
          rw [Bool.and_eq_true] at hd
          injection h with h
          subst h
          obtain ⟨hb1, hb2⟩ := isDigitCh_bounds hd.1
          simp only [digitsToNat, List.foldl]
          omega
        · split at h
          · rename_i hd
            rw [Bool.and_eq_true] at hd
            rcases rest with _ | ⟨d3, rest2⟩
            · simp at h
            · have h2 : (if (decide (d3 = '0') && boundaryB (some d3) rest2.head?) = true
                  then some [d1, d2, d3] else none) = some tok := h
              split at h2
              · rename_i hd3
                rw [Bool.and_eq_true] at hd3
                injection h2 with h2
                subst h2
                have e1 : d1 = '1' := of_decide_eq_true hd.1
                have e2 : d2 = '0' := of_decide_eq_true hd.2
                have e3 : d3 = '0' := of_decide_eq_true hd3.1
                subst e1; subst e2; subst e3
                decide
              · simp at h2
          · simp at h
    · simp at h

theorem searchFrom_le_100 (cs : List Char) :
    ∀ prev tok, searchFrom prev cs = some tok → digitsToNat tok ≤ 100 := by
  induction cs with
  | nil => intro prev tok h; simp [searchFrom] at h
  | cons c rest ih =>
    intro prev tok h
    unfold searchFrom at h
    cases hm : matchAt prev (c :: rest) with
    | some t =>
      rw [hm] at h
      injection h with h
      subst h
      exact matchAt_le_100 prev (c :: rest) _ hm
    | none =>
      rw [hm] at h
      exact ih (some c) tok h

/-! ## Claims about the score extractor -/

/-- C6: the claim states that `extractScore` returns the first standalone
0-100 integer token as a float, with `extractScore("72点です") = 72.0`,
`extractScore("no numbers here") = 50.0` and
`extractScore("100%確実") = 100.0`.  Evaluating the embedded code: the
second and third examples hold, but `extract_score "72点です" = 50`, not
`72` — Python's `\b` sees the ideograph `点` as a word character, so no
word boundary follows `72` and the regex finds no match. -/
theorem C6_code_eval :
    extract_score "72点です" = 50
    ∧ extract_score "72点です" ≠ 72
    ∧ extract_score "no numbers here" = 50
    ∧ extract_score "100%確実" = 100 :=
  ⟨by decide, by decide, by decide, by decide⟩

/-- C7: `extract_score` is total (a total Lean function by construction:
no step of the stripped-search-convert pipeline can fail), returns a value
in the inclusive interval [0, 100], and returns the fixed fallback `50.0`
whenever the regex search finds no parsable token. -/
theorem C7_extract_score_total_range (s : String) :
    0 ≤ extract_score s ∧ extract_score s ≤ 100
    ∧ (searchFrom none (pyStrip s.data) = none → extract_score s = 50) := by
  rcases hm : searchFrom none (pyStrip s.data) with _ | tok
  · have he : extract_score s = 50 := by simp [extract_score, hm]
    refine ⟨?_, ?_, fun _ => he⟩ <;> rw [he] <;> norm_num
  · have hb := searchFrom_le_100 (pyStrip s.data) none tok hm
    have he : extract_score s = ((digitsToNat tok : ℕ) : ℚ) := by
      simp [extract_score, hm]
    refine ⟨?_, ?_, fun hc => ?_⟩
    · rw [he]; positivity
    · rw [he]; exact_mod_cast hb
    · exact Option.noConfusion hc

/-- Closed instance of `C7_extract_score_total_range` at the input
`"abc"`, which has no parsable token. -/
theorem C7_witness :
    (0 ≤ extract_score "abc" ∧ extract_score "abc" ≤ 100)
    ∧ searchFrom none (pyStrip ("abc").data) = none
    ∧ extract_score "abc" = 50 :=
  ⟨⟨(C7_extract_score_total_range "abc").1,
    (C7_extract_score_total_range "abc").2.1⟩,
   by decide,
   (C7_extract_score_total_range "abc").2.2 (by decide)⟩

/-! ## Helper lemmas about backend switching -/

theorem load_avail_backend (env : Env) (mgr : ModelManager) (name : String) :
    (load_transformers_model_avail env mgr name).2.backend = mgr.backend := by
  unfold load_transformers_model_avail
  split
  · rfl
  · split
    · rfl
    · split
      · rfl
      · rfl

theorem load_avail_pipeline_of_fail (env : Env) (mgr : ModelManager)
    (name : String)
    (h : (load_transformers_model_avail env mgr name).1 = false) :
    (load_transformers_model_avail env mgr name).2.pipeline = mgr.pipeline := by
  revert h
  unfold load_transformers_model_avail
  split
  · intro _; rfl
  · split
    · intro _; rfl
    · split
      · intro _; rfl
      · intro h; simp at h

theorem switch_ollama_state (env : Env) (mgr : ModelManager)
    (mn : Option String) :
    (switch_backend env mgr ModelBackend.ollama mn).2.pipeline = mgr.pipeline
    ∧ (switch_backend env mgr ModelBackend.ollama mn).2.model = mgr.model
    ∧ (switch_backend env mgr ModelBackend.ollama mn).2.tokenizer = mgr.tokenizer := by
  simp only [switch_backend]
  split
  · exact ⟨rfl, rfl, rfl⟩
  · split
    · exact ⟨rfl, rfl, rfl⟩
    · exact ⟨rfl, rfl, rfl⟩

theorem switch_ollama_unavailable (env : Env) (mgr : ModelManager)
    (mn : Option String) (h : env.ollama_available = false) :
    switch_backend env mgr ModelBackend.ollama mn = (false, mgr) := by
  simp [switch_backend, h]

theorem switch_transformers_unavailable (env : Env) (mgr : ModelManager)
    (mn : Option String) (h : env.transformers_available = false) :
    switch_backend env mgr ModelBackend.transformers mn = (false, mgr) := by
  simp [switch_backend, h]

/-! ## Claims about backend switching -/

/-- C3 counterexample: from a prior state in which the in-process backend
is active with a cached pipeline handle, a switch to `transformers` with an
invalid model name fails (the tokenizer load raises), `activeKind` is
unchanged — but `loadedModelHandle` is not `None` afterwards: the old
handle is still cached, refuting the claim as stated. -/
theorem C3_counterexample :
    (switch_backend envLoadFail mgrLoaded ModelBackend.transformers
        (some "invalid/model")).1 = false
    ∧ (switch_backend envLoadFail mgrLoaded ModelBackend.transformers
        (some "invalid/model")).2.backend = mgrLoaded.backend
    ∧ ¬ ((switch_backend envLoadFail mgrLoaded ModelBackend.transformers
        (some "invalid/model")).2.pipeline = none) :=
  ⟨by decide, by decide, by decide⟩

/-- C3 amended: a failed switch to the in-process backend leaves both
`activeKind` and `loadedModelHandle` exactly as they were before the call
(the handle is unchanged rather than reset to `None`; intermediate
tokenizer/model fields may be partially updated). -/
theorem C3_amended_atomic (env : Env) (mgr : ModelManager)
    (mn : Option String)
    (h : (switch_backend env mgr ModelBackend.transformers mn).1 = false) :
    (switch_backend env mgr ModelBackend.transformers mn).2.backend = mgr.backend
    ∧ (switch_backend env mgr ModelBackend.transformers mn).2.pipeline = mgr.pipeline := by
  by_cases hav : env.transformers_available = false
  · simp [switch_backend, hav]
  · rcases hl : (load_transformers_model_avail env mgr
        (orDefault mn "rinna/japanese-gpt-neox-3.6b-instruction-sft")).1 with _ | _
    · simp only [switch_backend, hav, if_false, Bool.false_eq_true, ite_false, hl]
      exact ⟨load_avail_backend env mgr _, load_avail_pipeline_of_fail env mgr _ hl⟩
    · simp [switch_backend, hav, hl] at h

/-- Closed instance of `C3_amended_atomic` at the failing-load environment
and the loaded prior state. -/
theorem C3_amended_witness :
    (switch_backend envLoadFail mgrLoaded ModelBackend.transformers
        (some "invalid/model")).1 = false
    ∧ ((switch_backend envLoadFail mgrLoaded ModelBackend.transformers
        (some "invalid/model")).2.backend = mgrLoaded.backend
      ∧ (switch_backend envLoadFail mgrLoaded ModelBackend.transformers
        (some "invalid/model")).2.pipeline = mgrLoaded.pipeline) :=
  ⟨by decide,
   C3_amended_atomic envLoadFail mgrLoaded (some "invalid/model") (by decide)⟩

/-- C4 counterexample: from a prior state with a cached in-process handle,
a successful switch to the Ollama backend leaves the handle cached
(`pipeline = some 1`) while `activeKind = LocalServer`, refuting both the
release-on-switch requirement and the invariant
`loadedModelHandle ≠ None → activeKind = InProcessModel`. -/
theorem C4_counterexample :
    (switch_backend envOk mgrLoaded ModelBackend.ollama none).1 = true
    ∧ (switch_backend envOk mgrLoaded ModelBackend.ollama none).2.backend
        = some ModelBackend.ollama
    ∧ (switch_backend envOk mgrLoaded ModelBackend.ollama none).2.pipeline
        = some 1 :=
  ⟨by decide, by decide, by decide⟩

/-- C4 amended: `loadedModelHandle` starts out as `None` and is never
released by `switch_backend` — a switch to the Ollama backend (successful
or not) leaves the cached handle unchanged, so a handle loaded for the
in-process backend can persist while `activeKind = LocalServer`. -/
theorem C4_amended_handle_persists :
    initManager.pipeline = none
    ∧ ∀ (env : Env) (mgr : ModelManager) (mn : Option String),
        (switch_backend env mgr ModelBackend.ollama mn).2.pipeline = mgr.pipeline :=
  ⟨rfl, fun env mgr mn => (switch_ollama_state env mgr mn).1⟩

/-! ## Claims about the generation paths -/

/-- C1: the claim states that when the underlying backend generation call
raises, `generate` returns a degraded result whose summary is a
human-readable error string and whose `biasScore` equals `50.0`, with no
exception propagating.  Evaluating the embedded code on failing calls: no
exception propagates and the summary is the error text, but `bias_score`
is the Python literal `0.5`, not `50.0` (model.py 209 and 253; the
neighbouring extraction fallback on the same 0-100 scale uses `50.0`,
model.py 195). -/
theorem C1_code_eval :
    (generate_response_ollama envFail Agent.liberal "記事本文" "llama3.2").1
      = { summary := "Ollama APIエラー (liberal): connection refused",
          bias_score := 1/2 }
    ∧ (generate_response_ollama envFail Agent.liberal "記事本文" "llama3.2").1.bias_score ≠ 50
    ∧ (generate_response_transformers envFail mgrLoaded Agent.liberal "記事").1
      = { summary := "Transformers APIエラー (liberal): ImportError",
          bias_score := 1/2 }
    ∧ (generate_response_transformers envFail mgrLoaded Agent.liberal "記事").1.bias_score ≠ 50 := by
  refine ⟨rfl, ?_, rfl, ?_⟩
  · have e : (generate_response_ollama envFail Agent.liberal "記事本文" "llama3.2").1.bias_score
        = 1/2 := rfl
    rw [e]; norm_num
  · have e : (generate_response_transformers envFail mgrLoaded Agent.liberal "記事").1.bias_score
        = 1/2 := rfl
    rw [e]; norm_num

/-- C2: with no active backend and both implicit switch attempts failing
(neither backend dependency available), the module-level
`generate_response` returns the fixed no-backend result without issuing
any generation call, and `judge` on a non-empty article fails the whole
request with the 500 error instead of returning per-persona results. -/
theorem C2_no_backend (env : Env) (mgr : ModelManager) (req : ArticleRequest)
    (agent : Agent) (article : String) (mn : Option String)
    (ho : env.ollama_available = false)
    (ht : env.transformers_available = false)
    (hb : mgr.backend = none)
    (hrb : req.backend = none)
    (ha : req.article ≠ "") :
    generate_response env mgr agent article mn
      = ({ summary := "利用可能なバックエンドがありません", bias_score := 1/2 }, mgr, [])
    ∧ judge env mgr req
      = .error (HTTPError.serverError "利用可能なバックエンドがありません") := by
  have h1o := switch_ollama_unavailable env mgr (some "llama3.2") ho
  have h1m := switch_ollama_unavailable env mgr mn ho
  have h2 := switch_transformers_unavailable env mgr none ht
  refine ⟨?_, ?_⟩
  · simp [generate_response, hb, h1m, h2]
  · simp [judge, judge_override, judge_autoselect, hrb, hb, h1o, h2]

/-- Closed instance of `C2_no_backend` in the environment with neither
backend installed. -/
theorem C2_witness :
    (envNone.ollama_available = false ∧ envNone.transformers_available = false
     ∧ initManager.backend = none ∧ reqPlain.backend = none
     ∧ reqPlain.article ≠ "")
    ∧ (generate_response envNone initManager Agent.liberal "記事" none
        = ({ summary := "利用可能なバックエンドがありません", bias_score := 1/2 },
           initManager, [])
      ∧ judge envNone initManager reqPlain
        = .error (HTTPError.serverError "利用可能なバックエンドがありません")) :=
  ⟨⟨rfl, rfl, rfl, rfl, by decide⟩,
   C2_no_backend envNone initManager reqPlain Agent.liberal "記事" none
     rfl rfl rfl rfl (by decide)⟩

/-- C8 counterexample: with the in-process (`transformers`) backend active
and its pipeline loaded and succeeding, `generate` issues exactly one
generation call — there is no secondary 0-100 scoring call — and the
returned `bias_score` is the constant `0.5`, which is not the
ScoreExtractor value of the response; this refutes the claim for the
`InProcessModel` backend kind. -/
theorem C8_counterexample :
    (ModelManager.generate_response envTrans mgrLoaded Agent.liberal "記事" none).2.length = 1
    ∧ (ModelManager.generate_response envTrans mgrLoaded Agent.liberal "記事" none).1.bias_score = 1/2
    ∧ (ModelManager.generate_response envTrans mgrLoaded Agent.liberal "記事" none).1.bias_score
        ≠ extract_score "分析テキスト" := by
  have e1 : (ModelManager.generate_response envTrans mgrLoaded Agent.liberal "記事" none).1.bias_score
      = 1/2 := rfl
  have e2 : extract_score "分析テキスト" = 50 := by decide
  refine ⟨rfl, e1, ?_⟩
  rw [e1, e2]; norm_num

/-- C8 amended: under the Ollama (`LocalServer`) backend, `generate`
issues the primary narrative call and then the secondary 0-100 scoring
call, in that order, and the `bias_score` is the ScoreExtractor value of
the secondary response; under the in-process (`transformers`) backend,
at most one generation call is issued and the `bias_score` is the
constant `0.5`. -/
theorem C8_amended_two_calls (env : Env) (mgr : ModelManager) (agent : Agent)
    (text mn r1 r2 : String)
    (h1 : env.ollama_generate mn (compose_prompt agent text) = .ok r1)
    (h2 : env.ollama_generate mn (score_prompt agent text) = .ok r2) :
    (generate_response_ollama env agent text mn).2
      = [BackendCall.ollamaCall mn (compose_prompt agent text),
         BackendCall.ollamaCall mn (score_prompt agent text)]
    ∧ (generate_response_ollama env agent text mn).1
      = { summary := r1, bias_score := extract_score r2 }
    ∧ (generate_response_transformers env mgr agent text).1.bias_score = 1/2
    ∧ (generate_response_transformers env mgr agent text).2.length ≤ 1 := by
  refine ⟨?_, ?_, ?_, ?_⟩
  · simp [generate_response_ollama, h1, h2]
  · simp [generate_response_ollama, h1, h2]
  · unfold generate_response_transformers
    split
    · rfl
    · split <;> rfl
  · unfold generate_response_transformers
    split
    · simp
    · split <;> simp

/-- Closed instance of `C8_amended_two_calls` in the Ollama-only
environment whose calls answer `"42"`. -/
theorem C8_amended_witness :
    (envOk.ollama_generate "llama3.2" (compose_prompt Agent.liberal "記事") = .ok "42"
     ∧ envOk.ollama_generate "llama3.2" (score_prompt Agent.liberal "記事") = .ok "42")
    ∧ ((generate_response_ollama envOk Agent.liberal "記事" "llama3.2").2
        = [BackendCall.ollamaCall "llama3.2" (compose_prompt Agent.liberal "記事"),
           BackendCall.ollamaCall "llama3.2" (score_prompt Agent.liberal "記事")]
      ∧ (generate_response_ollama envOk Agent.liberal "記事" "llama3.2").1
        = { summary := "42", bias_score := extract_score "42" }
      ∧ (generate_response_transformers envOk initManager Agent.liberal "記事").1.bias_score = 1/2
      ∧ (generate_response_transformers envOk initManager Agent.liberal "記事").2.length ≤ 1) :=
  ⟨⟨rfl, rfl⟩,
   C8_amended_two_calls envOk initManager Agent.liberal "記事" "llama3.2" "42" "42" rfl rfl⟩

/-- C9: `compose_prompt` is deterministic and pure — a second call with
identical arguments gives an identical string, the output is exactly the
fixed framing, the persona instruction and the article in order, and the
prompt actually issued by the primary generation call is
`compose_prompt agent text` independently of the environment (no hidden
state influences it). -/
theorem C9_compose_prompt_pure (a : Agent) (s : String) (env1 env2 : Env)
    (mn : String) :
    compose_prompt a s = compose_prompt a s
    ∧ compose_prompt a s
      = "あなたは日本語で回答する有用なアシスタントです。" ++ agent_prompts a ++ "\n\n" ++ s
    ∧ (generate_response_ollama env1 a s mn).2.head?
      = some (BackendCall.ollamaCall mn (compose_prompt a s))
    ∧ (generate_response_ollama env1 a s mn).2.head?
      = (generate_response_ollama env2 a s mn).2.head? := by
  have key : ∀ env : Env, (generate_response_ollama env a s mn).2.head?
      = some (BackendCall.ollamaCall mn (compose_prompt a s)) := by
    intro env
    unfold generate_response_ollama
    split
    · rfl
    · split <;> rfl
  exact ⟨rfl, rfl, key env1, (key env1).trans (key env2).symm⟩

/-! ## Claims about the judge endpoint -/

theorem judge_loop_keys (env : Env) (l : List Agent) :
    ∀ (mgr : ModelManager) (article : String) (mn : Option String),
      (judge_loop env l mgr article mn).1.map Prod.fst = l.map Agent.name := by
  induction l with
  | nil => intro mgr article mn; rfl
  | cons a rest ih =>
    intro mgr article mn
    simp only [judge_loop, List.map]
    rw [ih]

theorem judge_loop_facts (env : Env) (l : List Agent) :
    ∀ (mgr : ModelManager) (article : String) (mn : Option String)
      (k : String) (e : JudgeEntry),
      (k, e) ∈ (judge_loop env l mgr article mn).1 → e.facts = [] := by
  induction l with
  | nil => intro mgr article mn k e h; simp [judge_loop] at h
  | cons a rest ih =>
    intro mgr article mn k e h
    simp only [judge_loop, List.mem_cons] at h
    rcases h with h | h
    · rw [Prod.mk.injEq] at h
      rw [h.2]
    · exact ih _ _ _ _ _ h

/-- C5: whenever `judge` returns a result set (any non-empty article), its
keys are exactly `liberal`, `conservative`, `neutral`, in this order,
regardless of how the individual generation calls fared. -/
theorem C5_result_keys (env : Env) (mgr : ModelManager) (req : ArticleRequest)
    (resp : JudgeResponse) (mgr2 : ModelManager)
    (ha : req.article ≠ "")
    (h : judge env mgr req = .ok (resp, mgr2)) :
    resp.results.map Prod.fst = ["liberal", "conservative", "neutral"] := by
  unfold judge at h
  split at h
  · exact Except.noConfusion h
  · split at h
    · exact Except.noConfusion h
    · injection h with h
      injection h with h1 h2
      rw [← h1]
      rw [judge_loop_keys]
      rfl

/-- Closed instance of `C5_result_keys` on a successful judge request. -/
theorem C5_witness :
    (("記事" : String) ≠ "" ∧ judge envOk initManager reqPlain = .ok (respOk, mgrOllama))
    ∧ respOk.results.map Prod.fst = ["liberal", "conservative", "neutral"] :=
  ⟨⟨by decide, by rfl⟩,
   C5_result_keys envOk initManager reqPlain respOk mgrOllama (by decide) (by rfl)⟩

/-- C10: every per-persona entry of a returned judge result carries,
besides `summary` and `bias_score`, the field `facts`, whose value is
always the empty list. -/
theorem C10_facts_empty (env : Env) (mgr : ModelManager) (req : ArticleRequest)
    (resp : JudgeResponse) (mgr2 : ModelManager)
    (h : judge env mgr req = .ok (resp, mgr2)) :
    ∀ (k : String) (e : JudgeEntry), (k, e) ∈ resp.results → e.facts = [] := by
  unfold judge at h
  split at h
  · exact Except.noConfusion h
  · split at h
    · exact Except.noConfusion h
    · injection h with h
      injection h with h1 h2
      intro k e hm
      rw [← h1] at hm
      exact judge_loop_facts env judgeAgents _ _ _ k e hm

/-- Closed instance of `C10_facts_empty` on a successful judge request. -/
theorem C10_witness :
    (judge envOk initManager reqPlain = .ok (respOk, mgrOllama)
     ∧ ("liberal", entryOk) ∈ respOk.results)
    ∧ entryOk.facts = [] :=
  ⟨⟨by rfl, by decide⟩,
   C10_facts_empty envOk initManager reqPlain respOk mgrOllama (by rfl)
     "liberal" entryOk (by decide)⟩

end FairNews
